import Mathlib

/-!
Verification development for the AWS usage-cost monitoring job
(`aws_usage_cost.py`): a scheduled task that queries month-to-date spend,
projects end-of-month cost by linear extrapolation, alerts three HTTP
notification channels when the projection exceeds a configured threshold,
and pings a health-check endpoint.

Shallow embedding conventions:
* Python floats are modelled as rationals (`ℚ`); the claims state exact
  identities in the order the source computes them.
* Dates are `(year, month, day)` triples; `calendar.monthrange(y, m)[1]`
  is embedded as `daysInMonth` with the Gregorian leap-year rule.
* External effects (the billing fetch, three HTTP POSTs, the health-check
  GET) are inputs: a `World` value records each call's outcome, and the
  embedded functions map a `World` to the observable trace (return values,
  messages sent per channel, log events).  Per the specification of the
  collaborators, the HTTP client raises on timeout/network error, and
  `raise_for_status` raises exactly on a non-2xx status.
* Fallible code returns `Option`: `get_end_of_month_projection` returns
  `none` on the (unreachable) ZeroDivisionError branch, and `main` returns
  `none` when that error would propagate.
* The module-level configuration value `THRESHOLD` (read from the
  environment at startup) is passed as an explicit parameter.
-/

namespace AwsUsageCost

/-- Gregorian leap-year rule, as used by Python's `calendar` module. -/
def isLeapYear (y : ℕ) : Bool :=
  (y % 4 == 0 && y % 100 != 0) || y % 400 == 0

/-- Embeds `calendar.monthrange(y, m)[1]`: the number of days in month `m`
of year `y` (months are 1-based). -/
def daysInMonth (y m : ℕ) : ℕ :=
  if m = 2 then (if isLeapYear y then 29 else 28)
  else if m = 4 ∨ m = 6 ∨ m = 9 ∨ m = 11 then 30
  else 31

/-- A calendar date, as produced by `datetime.now(...).date()`. -/
structure Date where
  year : ℕ
  month : ℕ
  day : ℕ
deriving DecidableEq

/-- A valid calendar date: month in 1..12 and day in 1..daysInMonth. -/
def ValidDate (d : Date) : Prop :=
  1 ≤ d.month ∧ d.month ≤ 12 ∧ 1 ≤ d.day ∧ d.day ≤ daysInMonth d.year d.month

/-- Python `date` comparison `a <= b` (lexicographic on year, month, day). -/
def dateLe (a b : Date) : Bool :=
  if a.year ≠ b.year then decide (a.year < b.year)
  else if a.month ≠ b.month then decide (a.month < b.month)
  else decide (a.day ≤ b.day)

/-- Python `date` comparison `a < b` (lexicographic on year, month, day). -/
def dateLt (a b : Date) : Bool :=
  if a.year ≠ b.year then decide (a.year < b.year)
  else if a.month ≠ b.month then decide (a.month < b.month)
  else decide (a.day < b.day)

/-- Embeds `d + timedelta(days=1)` for a date whose day is within range. -/
def addOneDay (d : Date) : Date :=
  if d.day < daysInMonth d.year d.month then ⟨d.year, d.month, d.day + 1⟩
  else if d.month < 12 then ⟨d.year, d.month + 1, 1⟩
  else ⟨d.year + 1, 1, 1⟩

/-- `datetime(end.year, end.month, 1).date()`: first day of `d`'s month. -/
def firstOfMonth (d : Date) : Date :=
  ⟨d.year, d.month, 1⟩

/-- Embeds the date-window construction in `get_current_costs`
(lines 46-51): `end` is today, `start` the first of the month, and if
`start >= end` then `end` is moved one day later. -/
def getQueryWindow (today : Date) : Date × Date :=
  let start := firstOfMonth today
  if dateLe today start then (start, addOneDay today) else (start, today)

/-- Embeds `get_end_of_month_projection` (lines 67-76).  The current date
is an input (the source reads the clock).  Python raises
`ZeroDivisionError` when `current_date.day == 0`, embedded as `none`. -/
def get_end_of_month_projection (today : Date) (current_cost : ℚ) :
    Option (ℚ × ℚ) :=
  let days_in_month := daysInMonth today.year today.month
  let current_day_of_month := today.day
  let remaining_days : ℤ := (days_in_month : ℤ) - (current_day_of_month : ℤ)
  if current_day_of_month = 0 then none
  else
    some ((current_cost / (current_day_of_month : ℚ)) * (days_in_month : ℚ),
          (current_cost / (current_day_of_month : ℚ)) * (remaining_days : ℚ))

/-- Two-digit zero-padded rendering of a number below 100. -/
def natPad2 (n : ℕ) : String :=
  if n < 10 then "0" ++ toString n else toString n

/-- Round a rational to the nearest integer, ties to even (the rounding
used by Python's fixed-point float formatting). -/
def roundHalfEvenQ (q : ℚ) : ℤ :=
  let f : ℤ := Int.floor q
  let frac : ℚ := q - (f : ℚ)
  if frac < 1 / 2 then f
  else if 1 / 2 < frac then f + 1
  else if f % 2 = 0 then f else f + 1

/-- Embeds the Python format specifier `:.2f`: fixed-point rendering with
exactly two digits after the decimal point. -/
def fmtFixed2 (q : ℚ) : String :=
  let c : ℤ := roundHalfEvenQ (q * 100)
  let a : ℕ := c.natAbs
  let body := toString (a / 100) ++ "." ++ natPad2 (a % 100)
  if c < 0 then "-" ++ body else body

/-- Left-pad the decimal rendering of `n` with zeros to width `k`. -/
def padZeros (n k : ℕ) : String :=
  let s := toString n
  String.mk (List.replicate (k - s.length) '0') ++ s

/-- Embeds Python's `str()` of a float with a finite decimal expansion
(the default rendering used by `f"...{THRESHOLD}..."`): integers render as
`n.0`, and other finitely-representable values with their exact shortest
decimal expansion. -/
def pyFloatStr (q : ℚ) : String :=
  if q.den = 1 then toString q.num ++ ".0"
  else
    let k := ((List.range 17).filter
      (fun j => (q * (10 : ℚ) ^ (j + 1)).den = 1)).head?.getD 16 + 1
    let n : ℤ := (q * (10 : ℚ) ^ k).num
    let a : ℕ := n.natAbs
    let body := toString (a / 10 ^ k) ++ "." ++ padZeros (a % 10 ^ k) k
    if n < 0 then "-" ++ body else body

/-- The alert message built in `check_threshold_exceeded` (line 130):
`f"ATTENTION! Projected end-of-month AWS costs of {projected_cost:.2f}
USD exceeds {THRESHOLD} USD!"`. -/
def alertMessage (projected_cost threshold : ℚ) : String :=
  "ATTENTION! Projected end-of-month AWS costs of " ++
    fmtFixed2 projected_cost ++ " USD exceeds " ++
    pyFloatStr threshold ++ " USD!"

/-- Whether `needle` occurs as a contiguous sublist of the second list. -/
def subListCheck (needle : List Char) : List Char → Bool
  | [] => needle.isEmpty
  | c :: t => needle.isPrefixOf (c :: t) || subListCheck needle t

/-- Whether `needle` occurs as a substring of `hay`. -/
def strContainsSub (hay needle : String) : Bool :=
  subListCheck needle.toList hay.toList

/-- Outcome of one outbound HTTP POST, as seen by the caller: either the
request completed with some status code, or the client raised (network
error or timeout). -/
inductive PostOutcome where
  | completed (code : ℕ)
  | raised
deriving DecidableEq

/-- The status code is in the 2xx success range. -/
def is2xx (code : ℕ) : Bool :=
  decide (200 ≤ code) && decide (code < 300)

/-- The `status` field of a sender's result dict: a numeric HTTP status on
success, the string `"Failed"` otherwise. -/
inductive SendStatus where
  | code (n : ℕ)
  | failedStr
deriving DecidableEq

/-- The dict `{"ok": ..., "status": ...}` returned by each sender. -/
structure SendResult where
  ok : Bool
  status : SendStatus
deriving DecidableEq

/-- The three notification channels. -/
inductive Channel where
  | discord
  | gotify
  | ntfy
deriving DecidableEq

/-- One notification attempt: which channel, the message it was given,
and the result dict returned. -/
structure SendAttempt where
  channel : Channel
  message : String
  result : SendResult
deriving DecidableEq

/-- Shared result logic of the three senders (lines 79-123): each POSTs,
calls `raise_for_status`, returns `{"ok": True, "status": code}` when no
exception occurs, and catches every exception into
`{"ok": False, "status": "Failed"}`.  Per the collaborator model the
client raises on network error/timeout and `raise_for_status` raises
exactly on a non-2xx status. -/
def interpretPost (post : PostOutcome) : SendResult :=
  match post with
  | .raised => ⟨false, .failedStr⟩
  | .completed code =>
      if is2xx code then ⟨true, .code code⟩ else ⟨false, .failedStr⟩

/-- Embeds `send_discord_notification` (lines 94-107): JSON
`{"content": message}` POSTed to the webhook URL, 5s timeout. -/
def send_discord (post : PostOutcome) (message : String) : SendAttempt :=
  ⟨.discord, message, interpretPost post⟩

/-- Embeds `send_gotify_notification` (lines 79-91): JSON
`{"message": message, "priority": 5}` POSTed with token query parameter,
10s timeout. -/
def send_gotify (post : PostOutcome) (message : String) : SendAttempt :=
  ⟨.gotify, message, interpretPost post⟩

/-- Embeds `send_ntfy_notification` (lines 110-123): raw-text body POSTed
with bearer-token header, 10s timeout. -/
def send_ntfy (post : PostOutcome) (message : String) : SendAttempt :=
  ⟨.ntfy, message, interpretPost post⟩

/-- External outcomes of one tick: the billing fetch (`some amount` when
the cost query succeeds, `none` when it raises), the POST outcome of each
channel, and whether the health-check GET succeeds. -/
structure World where
  fetch : Option ℚ
  discordPost : PostOutcome
  gotifyPost : PostOutcome
  ntfyPost : PostOutcome
  healthGet : Bool
deriving DecidableEq

/-- Log events emitted during a run (payload details omitted where no
claim depends on them). -/
inductive LogEvent where
  | fetchFailure
  | currentDateTime
  | currentMonthCosts
  | projectedCost
  | projectedSpending
  | allSentOk
  | channelSentOk (c : Channel)
  | sendsFailed
  | noThresholdExceeded
  | healthCheckFailure
deriving DecidableEq

/-- Embeds `get_current_costs` (lines 35-64): builds the query window,
issues the cost-and-usage query over it, returns the amount, and on any
exception logs and returns `0.0`.  The window it constructed is part of
the observable result. -/
def get_current_costs (w : World) (today : Date) : (Date × Date) × ℚ :=
  (getQueryWindow today,
   match w.fetch with
   | none => 0
   | some amount => amount)

/-- Observable behaviour of one `check_threshold_exceeded` call: its
return value (`None`, `True` or `False`), the notification attempts it
made in order, and the log events it emitted. -/
structure CheckTrace where
  retval : Option Bool
  attempts : List SendAttempt
  logs : List LogEvent
deriving DecidableEq

/-- Embeds `check_threshold_exceeded` (lines 126-145): returns `None`
when `projected_cost <= THRESHOLD`; otherwise builds the alert message,
sends it to Discord, Gotify and Ntfy in that order, returns `True` with a
success log when all three succeeded, else logs per-channel successes and
an error and returns `False`. -/
def check_threshold_exceeded (threshold : ℚ) (w : World)
    (projected_cost : ℚ) : CheckTrace :=
  if projected_cost ≤ threshold then ⟨none, [], []⟩
  else
    let message := alertMessage projected_cost threshold
    let d := send_discord w.discordPost message
    let g := send_gotify w.gotifyPost message
    let n := send_ntfy w.ntfyPost message
    if d.result.ok && g.result.ok && n.result.ok then
      ⟨some true, [d, g, n], [.allSentOk]⟩
    else
      ⟨some false, [d, g, n],
        (if d.result.ok then [LogEvent.channelSentOk .discord] else []) ++
        (if g.result.ok then [LogEvent.channelSentOk .gotify] else []) ++
        (if n.result.ok then [LogEvent.channelSentOk .ntfy] else []) ++
        [.sendsFailed]⟩

/-- Python truthiness of a `bool | None` value: `None` and `False` are
falsy, `True` is truthy. -/
def pyTruthy (b : Option Bool) : Bool :=
  b.getD false

/-- Observable behaviour of one tick of `main`. -/
structure RunTrace where
  window : Date × Date
  currentCost : ℚ
  projected : ℚ × ℚ
  check : CheckTrace
  logs : List LogEvent
  healthAttempted : Bool
deriving DecidableEq

/-- Embeds `main` (lines 151-167): fetch the current cost (0 on fetch
failure), project, log, run `check_threshold_exceeded`, log "No threshold
exceeded." when its return value is falsy, then attempt the health-check
GET inside a try/except that swallows failures.  Returns `none` only when
the projection's ZeroDivisionError would propagate. -/
def main (threshold : ℚ) (w : World) (today : Date) : Option RunTrace :=
  let fetched := get_current_costs w today
  let window := fetched.1
  let current_cost := fetched.2
  match get_end_of_month_projection today current_cost with
  | none => none
  | some (projected_cost, projected_spending) =>
    let ct := check_threshold_exceeded threshold w projected_cost
    some ⟨window, current_cost, (projected_cost, projected_spending), ct,
      (if w.fetch = none then [LogEvent.fetchFailure] else []) ++
        [.currentDateTime, .currentMonthCosts, .projectedCost,
         .projectedSpending] ++ ct.logs ++
        (if pyTruthy ct.retval then [] else [.noThresholdExceeded]) ++
        (if w.healthGet then [] else [.healthCheckFailure]),
      true⟩

/-- Sample tick outcomes where every external call succeeds. -/
def wAllOk : World :=
  ⟨some 620, .completed 200, .completed 200, .completed 200, true⟩

/-- Sample tick outcomes where the Discord POST raises and everything else
succeeds. -/
def wDiscordRaises : World :=
  ⟨some 620, .raised, .completed 200, .completed 200, true⟩

/-- Sample tick outcomes where the billing fetch raises and everything
else succeeds. -/
def wFetchFail : World :=
  ⟨none, .completed 200, .completed 200, .completed 200, true⟩

/-- Every month length returned by `daysInMonth` is at least two, so
adding one day to the first of a month stays within that month. -/
theorem one_lt_daysInMonth (y m : ℕ) : 1 < daysInMonth y m := by
  unfold daysInMonth
  split
  · split <;> norm_num
  · split <;> norm_num

/-- C1: for every currentCost ≥ 0 and valid date with dayOfMonth in
[1, daysInMonth], the projection returns
projectedTotalCost = (currentCost/dayOfMonth) * daysInMonth and
projectedRemainingSpend = (currentCost/dayOfMonth) * (daysInMonth -
dayOfMonth). -/
theorem projection_formula (today : Date) (c : ℚ)
    (h1 : 1 ≤ today.day)
    (h2 : today.day ≤ daysInMonth today.year today.month)
    (hc : 0 ≤ c) :
    get_end_of_month_projection today c =
      some ((c / (today.day : ℚ)) * (daysInMonth today.year today.month : ℚ),
            (c / (today.day : ℚ)) *
              ((daysInMonth today.year today.month : ℚ) - (today.day : ℚ))) := by
  have hd : today.day ≠ 0 := by omega
  simp only [get_end_of_month_projection, hd, if_false]
  push_cast
  ring_nf

/-- Witness for C1, on the spec's scenario: cost 620 on day 10 of the
30-day month June 2025 projects to total 1860 and remaining spend 1240. -/
theorem projection_formula_witness :
    (1 ≤ 10 ∧ (10 : ℕ) ≤ daysInMonth 2025 6 ∧ (0 : ℚ) ≤ 620)
    ∧ get_end_of_month_projection ⟨2025, 6, 10⟩ 620 =
        some ((620 / ((10 : ℕ) : ℚ)) * (daysInMonth 2025 6 : ℚ),
              (620 / ((10 : ℕ) : ℚ)) *
                ((daysInMonth 2025 6 : ℚ) - ((10 : ℕ) : ℚ)))
    ∧ get_end_of_month_projection ⟨2025, 6, 10⟩ 620 = some (1860, 1240) :=
  ⟨⟨by norm_num, by norm_num [daysInMonth, isLeapYear], by norm_num⟩,
   projection_formula ⟨2025, 6, 10⟩ 620 (by norm_num)
     (by norm_num [daysInMonth, isLeapYear]) (by norm_num),
   by norm_num [get_end_of_month_projection, daysInMonth, isLeapYear]⟩

/-- C2: when the threshold is exceeded, all three channels are attempted
in order (Discord, Gotify, Ntfy) whatever each POST's outcome is, and the
returned value is `True` exactly when every channel's result reports
success. -/
theorem dispatch_all_channels (threshold projected_cost : ℚ) (w : World)
    (h : threshold < projected_cost) :
    ((check_threshold_exceeded threshold w projected_cost).attempts.map
        SendAttempt.channel
      = [Channel.discord, Channel.gotify, Channel.ntfy])
    ∧ ((check_threshold_exceeded threshold w projected_cost).retval
          = some true ↔
        ∀ a ∈ (check_threshold_exceeded threshold w projected_cost).attempts,
          a.result.ok = true) := by
  have hle : ¬ projected_cost ≤ threshold := not_le.mpr h
  simp only [check_threshold_exceeded, if_neg hle, send_discord, send_gotify,
    send_ntfy]
  split
  · rename_i hcond
    simp_all
  · rename_i hcond
    simp_all

/-- Witness for C2: with the Discord POST raising and the others
succeeding, all three channels are still attempted and the overall result
is `False`. -/
theorem dispatch_all_channels_witness :
    ((0 : ℚ) < 1)
    ∧ (check_threshold_exceeded 0 wDiscordRaises 1).attempts.map
        SendAttempt.channel
      = [Channel.discord, Channel.gotify, Channel.ntfy]
    ∧ (check_threshold_exceeded 0 wDiscordRaises 1).retval = some false :=
  ⟨by norm_num,
   (dispatch_all_channels 0 1 wDiscordRaises (by norm_num)).1,
   by simp [check_threshold_exceeded, (by norm_num : ¬ (1 : ℚ) ≤ 0),
        send_discord, send_gotify, send_ntfy, interpretPost, is2xx,
        wDiscordRaises]⟩

/-- C3: notifications are dispatched exactly when the projected cost is
strictly greater than the threshold; at equality the call returns `None`
with no attempts (WithinLimit). -/
theorem threshold_strict (threshold projected_cost : ℚ) (w : World) :
    ((check_threshold_exceeded threshold w projected_cost).retval.isSome
        = true ↔ threshold < projected_cost)
    ∧ ((check_threshold_exceeded threshold w projected_cost).attempts ≠ [] ↔
        threshold < projected_cost)
    ∧ (projected_cost = threshold →
        check_threshold_exceeded threshold w projected_cost
          = ⟨none, [], []⟩) := by
  by_cases hle : projected_cost ≤ threshold
  · have hck : check_threshold_exceeded threshold w projected_cost
        = ⟨none, [], []⟩ := by
      unfold check_threshold_exceeded
      rw [if_pos hle]
    rw [hck]
    exact ⟨iff_of_false (by simp) (not_lt.mpr hle),
           iff_of_false (by simp) (not_lt.mpr hle),
           fun _ => rfl⟩
  · have hlt : threshold < projected_cost := lt_of_not_ge hle
    refine ⟨iff_of_true ?_ hlt, iff_of_true ?_ hlt,
      fun hEq => absurd hEq (ne_of_gt hlt)⟩
    · simp only [check_threshold_exceeded, if_neg hle]
      split <;> rfl
    · simp only [check_threshold_exceeded, if_neg hle]
      split <;> simp

/-- Witness for C3, on the spec's examples: evaluate(100.01, 100.00)
dispatches, evaluate(100.00, 100.00) is WithinLimit. -/
theorem threshold_strict_witness :
    ((check_threshold_exceeded 100 wAllOk (10001 / 100)).retval.isSome
        = true)
    ∧ check_threshold_exceeded 100 wAllOk 100 = ⟨none, [], []⟩ :=
  ⟨(threshold_strict 100 (10001 / 100) wAllOk).1.mpr (by norm_num),
   (threshold_strict 100 100 wAllOk).2.2 rfl⟩

/-- C4 (amended: the configured threshold is assumed nonnegative): when
the billing fetch raises, the run completes with the current cost treated
as 0, no notification dispatched, and the health-check still attempted. -/
theorem fetch_failure_graceful (threshold : ℚ) (w : World) (today : Date)
    (hthr : 0 ≤ threshold) (hday : 1 ≤ today.day) (hfetch : w.fetch = none) :
    ∃ tr, main threshold w today = some tr
      ∧ tr.currentCost = 0
      ∧ tr.check = ⟨none, [], []⟩
      ∧ tr.healthAttempted = true := by
  have hd : today.day ≠ 0 := by omega
  have hproj : get_end_of_month_projection today 0 = some (0, 0) := by
    simp [get_end_of_month_projection, hd]
  have hck : check_threshold_exceeded threshold w 0 = ⟨none, [], []⟩ := by
    simp [check_threshold_exceeded, hthr]
  simp only [main, get_current_costs, hfetch, hproj, hck]
  exact ⟨_, rfl, rfl, rfl, rfl⟩

/-- Witness for C4's amended statement at a concrete input. -/
theorem fetch_failure_graceful_witness :
    ((0 : ℚ) ≤ 100 ∧ 1 ≤ (Date.mk 2025 6 10).day ∧ wFetchFail.fetch = none)
    ∧ ∃ tr, main 100 wFetchFail ⟨2025, 6, 10⟩ = some tr
        ∧ tr.currentCost = 0
        ∧ tr.check = ⟨none, [], []⟩
        ∧ tr.healthAttempted = true :=
  ⟨⟨by norm_num, by norm_num, rfl⟩,
   fetch_failure_graceful 100 wFetchFail ⟨2025, 6, 10⟩ (by norm_num)
     (by norm_num) rfl⟩

/-- Counterexample to C4 as stated: with a negative configured threshold
(-1), a failed billing fetch still leads to a dispatched notification,
because the zero projection strictly exceeds the threshold. -/
theorem fetch_failure_negative_threshold_dispatches :
    ∃ tr, main (-1) wFetchFail ⟨2025, 6, 10⟩ = some tr
      ∧ tr.currentCost = 0
      ∧ tr.check.attempts ≠ [] := by
  have hproj : get_end_of_month_projection ⟨2025, 6, 10⟩ 0 = some (0, 0) := by
    simp [get_end_of_month_projection]
  have hle : ¬ (0 : ℚ) ≤ -1 := by norm_num
  simp only [main, get_current_costs, wFetchFail, hproj]
  refine ⟨_, rfl, rfl, ?_⟩
  simp [check_threshold_exceeded, hle, send_discord, send_gotify, send_ntfy,
    interpretPost, is2xx]

/-- C5 (code bug): on a tick where the projection exceeds the threshold
but one channel fails, `check_threshold_exceeded` returns `False`, which
is falsy in Python, so `main` also emits the "No threshold exceeded." log
entry even though the threshold was exceeded. -/
theorem within_limit_log_misfires :
    ∃ tr, main 100 wDiscordRaises ⟨2025, 6, 10⟩ = some tr
      ∧ tr.projected.1 = 1860
      ∧ (100 : ℚ) < tr.projected.1
      ∧ tr.check.retval = some false
      ∧ LogEvent.noThresholdExceeded ∈ tr.logs := by
  have hproj : get_end_of_month_projection ⟨2025, 6, 10⟩ 620
      = some (1860, 1240) := by
    norm_num [get_end_of_month_projection, daysInMonth, isLeapYear]
  have hle : ¬ (1860 : ℚ) ≤ 100 := by norm_num
  have hck : (check_threshold_exceeded 100 wDiscordRaises 1860).retval
      = some false := by
    simp [check_threshold_exceeded, hle, send_discord, send_gotify, send_ntfy,
      interpretPost, wDiscordRaises]
  simp only [main, get_current_costs, wDiscordRaises, hproj] at *
  refine ⟨_, rfl, rfl, by norm_num, hck, ?_⟩
  simp [pyTruthy, hck]

/-- C6: the billing query window starts at the first of the current
month; its end is today, except on the first of the month where it is
widened by exactly one day; the resulting range is always non-empty. -/
theorem query_window_spec (today : Date)
    (h1 : 1 ≤ today.day)
    (h2 : today.day ≤ daysInMonth today.year today.month) :
    (getQueryWindow today).1 = firstOfMonth today
    ∧ (today.day = 1 → (getQueryWindow today).2 = addOneDay today)
    ∧ (1 < today.day → (getQueryWindow today).2 = today)
    ∧ dateLt (getQueryWindow today).1 (getQueryWindow today).2 = true := by
  have hm := one_lt_daysInMonth today.year today.month
  by_cases hd1 : today.day = 1
  · have hle : dateLe today (firstOfMonth today) = true := by
      simp [dateLe, firstOfMonth, hd1]
    have hw : getQueryWindow today = (firstOfMonth today, addOneDay today) := by
      simp [getQueryWindow, hle]
    have haod : addOneDay today
        = ⟨today.year, today.month, today.day + 1⟩ := by
      unfold addOneDay
      rw [if_pos (by omega)]
    rw [hw]
    refine ⟨rfl, fun _ => rfl, fun h => absurd hd1 (by omega), ?_⟩
    rw [haod]
    simp [dateLt, firstOfMonth, hd1]
  · have hle : dateLe today (firstOfMonth today) = false := by
      simp [dateLe, firstOfMonth]
      omega
    have hw : getQueryWindow today = (firstOfMonth today, today) := by
      simp [getQueryWindow, hle]
    rw [hw]
    refine ⟨rfl, fun h => absurd h hd1, fun _ => rfl, ?_⟩
    simp [dateLt, firstOfMonth]
    omega

/-- Witness for C6 on the first of June 2025: the window is widened to
[2025-06-01, 2025-06-02]. -/
theorem query_window_spec_witness :
    (1 ≤ (Date.mk 2025 6 1).day
      ∧ (Date.mk 2025 6 1).day ≤ daysInMonth 2025 6)
    ∧ (getQueryWindow ⟨2025, 6, 1⟩).1 = firstOfMonth ⟨2025, 6, 1⟩
    ∧ ((Date.mk 2025 6 1).day = 1 →
        (getQueryWindow ⟨2025, 6, 1⟩).2 = addOneDay ⟨2025, 6, 1⟩)
    ∧ dateLt (getQueryWindow ⟨2025, 6, 1⟩).1 (getQueryWindow ⟨2025, 6, 1⟩).2
        = true
    ∧ getQueryWindow ⟨2025, 6, 1⟩ = (⟨2025, 6, 1⟩, ⟨2025, 6, 2⟩) := by
  have h := query_window_spec ⟨2025, 6, 1⟩ (by norm_num)
    (by norm_num [daysInMonth, isLeapYear])
  exact ⟨⟨by norm_num, by norm_num [daysInMonth, isLeapYear]⟩, h.1, h.2.1,
    h.2.2.2, by simp [getQueryWindow, dateLe, firstOfMonth, addOneDay,
      daysInMonth, isLeapYear]⟩

/-- C7: on Exceeded, a single message is built and the identical string
is passed to all three senders; the message is the fixed prefix, the
projected cost formatted to two decimals, the threshold, and a suffix. -/
theorem alert_message_single (threshold projected_cost : ℚ) (w : World)
    (h : threshold < projected_cost) :
    ((check_threshold_exceeded threshold w projected_cost).attempts.map
        SendAttempt.message
      = [alertMessage projected_cost threshold,
         alertMessage projected_cost threshold,
         alertMessage projected_cost threshold])
    ∧ alertMessage projected_cost threshold =
        "ATTENTION! Projected end-of-month AWS costs of " ++
          fmtFixed2 projected_cost ++ " USD exceeds " ++
          pyFloatStr threshold ++ " USD!" := by
  have hle : ¬ projected_cost ≤ threshold := not_le.mpr h
  refine ⟨?_, rfl⟩
  simp only [check_threshold_exceeded, if_neg hle, send_discord, send_gotify,
    send_ntfy]
  split <;> rfl

/-- Witness for C7 on the spec's scenario: for projected cost 1860 and
threshold 1500 the one message passed to all three channels contains
"1860.00" and "1500.0". -/
theorem alert_message_single_witness :
    ((1500 : ℚ) < 1860)
    ∧ (check_threshold_exceeded 1500 wAllOk 1860).attempts.map
        SendAttempt.message
      = [alertMessage 1860 1500, alertMessage 1860 1500,
         alertMessage 1860 1500]
    ∧ strContainsSub (alertMessage 1860 1500) "1860.00" = true
    ∧ strContainsSub (alertMessage 1860 1500) "1500.0" = true := by
  have h1 : fmtFixed2 1860 = "1860.00" := by
    norm_num [fmtFixed2, roundHalfEvenQ, natPad2]
    rfl
  have h2 : pyFloatStr 1500 = "1500.0" := by
    norm_num [pyFloatStr]
    rfl
  refine ⟨by norm_num,
    (alert_message_single 1500 1860 wAllOk (by norm_num)).1, ?_, ?_⟩
  · rw [alertMessage, h1, h2]
    decide
  · rw [alertMessage, h1, h2]
    decide

/-- C8: the projection outputs satisfy the reconstruction identity
projectedRemainingSpend + (currentCost/dayOfMonth)*dayOfMonth =
projectedTotalCost, exactly over the rationals. -/
theorem reconstruction_identity (today : Date) (c : ℚ)
    (h1 : 1 ≤ today.day)
    (h2 : today.day ≤ daysInMonth today.year today.month)
    (hc : 0 ≤ c) :
    ∀ t s, get_end_of_month_projection today c = some (t, s) →
      s + (c / (today.day : ℚ)) * (today.day : ℚ) = t := by
  intro t s h
  have hd : today.day ≠ 0 := by omega
  simp only [get_end_of_month_projection, hd, if_false, Option.some.injEq,
    Prod.mk.injEq] at h
  obtain ⟨ht, hs⟩ := h
  subst ht hs
  push_cast
  ring

/-- Witness for C8 at cost 620 on 2025-06-10: 1240 + 62·10 = 1860. -/
theorem reconstruction_identity_witness :
    (1 ≤ 10 ∧ (10 : ℕ) ≤ daysInMonth 2025 6 ∧ (0 : ℚ) ≤ 620)
    ∧ (1240 : ℚ) + (620 / ((10 : ℕ) : ℚ)) * ((10 : ℕ) : ℚ) = 1860 :=
  ⟨⟨by norm_num, by norm_num [daysInMonth, isLeapYear], by norm_num⟩,
   reconstruction_identity ⟨2025, 6, 10⟩ 620 (by norm_num)
     (by norm_num [daysInMonth, isLeapYear]) (by norm_num) 1860 1240
     (by norm_num [get_end_of_month_projection, daysInMonth, isLeapYear])⟩

/-- C9: for every date with dayOfMonth ≥ 1 the projection never takes the
ZeroDivisionError branch: it always returns a value. -/
theorem no_division_by_zero (today : Date) (c : ℚ) (h : 1 ≤ today.day) :
    ∃ p, get_end_of_month_projection today c = some p := by
  have hd : today.day ≠ 0 := by omega
  simp only [get_end_of_month_projection, hd, if_false]
  exact ⟨_, rfl⟩

/-- Witness for C9 at a concrete valid date. -/
theorem no_division_by_zero_witness :
    (1 ≤ (Date.mk 2025 6 10).day)
    ∧ ∃ p, get_end_of_month_projection ⟨2025, 6, 10⟩ 620 = some p :=
  ⟨by norm_num, no_division_by_zero ⟨2025, 6, 10⟩ 620 (by norm_num)⟩

/-- C10: each of the three senders is total and translates its POST
outcome identically: `ok = True` with the numeric status exactly when the
POST completed with a 2xx status, and `ok = False` with status `"Failed"`
on a raise or a non-2xx completion. -/
theorem sender_boundary (post : PostOutcome) (msg : String) :
    ((send_gotify post msg).result = interpretPost post)
    ∧ ((send_discord post msg).result = interpretPost post)
    ∧ ((send_ntfy post msg).result = interpretPost post)
    ∧ (∀ c, post = PostOutcome.completed c → is2xx c = true →
        interpretPost post = ⟨true, SendStatus.code c⟩)
    ∧ (post = PostOutcome.raised →
        interpretPost post = ⟨false, SendStatus.failedStr⟩)
    ∧ (∀ c, post = PostOutcome.completed c → is2xx c = false →
        interpretPost post = ⟨false, SendStatus.failedStr⟩)
    ∧ ((interpretPost post).ok = true ↔
        ∃ c, post = PostOutcome.completed c ∧ is2xx c = true) := by
  refine ⟨rfl, rfl, rfl, ?_, ?_, ?_, ?_⟩
  · intro c hc hx
    subst hc
    simp [interpretPost, hx]
  · intro hr
    subst hr
    rfl
  · intro c hc hx
    subst hc
    simp [interpretPost, hx]
  · cases post with
    | raised => simp [interpretPost]
    | completed c =>
        by_cases hx : is2xx c = true <;> simp [interpretPost, hx]

/-- Witness for C10: a 2xx completion, a raise, and a 500 completion at
each of the three senders. -/
theorem sender_boundary_witness :
    ((send_gotify (PostOutcome.completed 200) "alert").result
        = ⟨true, SendStatus.code 200⟩)
    ∧ ((send_discord PostOutcome.raised "alert").result
        = ⟨false, SendStatus.failedStr⟩)
    ∧ ((send_ntfy (PostOutcome.completed 500) "alert").result
        = ⟨false, SendStatus.failedStr⟩) := by
  refine ⟨?_, ?_, ?_⟩
  · have h := sender_boundary (PostOutcome.completed 200) "alert"
    rw [h.1]
    exact h.2.2.2.1 200 rfl (by decide)
  · have h := sender_boundary PostOutcome.raised "alert"
    rw [h.2.1]
    exact h.2.2.2.2.1 rfl
  · have h := sender_boundary (PostOutcome.completed 500) "alert"
    rw [h.2.2.1]
    exact h.2.2.2.2.2.1 500 rfl (by decide)

end AwsUsageCost
